import Mathlib

/-!
Shallow embedding of `scandeval/openai_models.py`: the `OpenAITokenizer`
and `OpenAIModel` adapters that wrap the OpenAI completion API behind a
local tokenizer/model interface.  Remote calls are modelled by an oracle
giving the outcome of the k-th remote request; the unbounded retry loop
is modelled with explicit fuel (outcome `diverged` means the loop was
still running when the fuel ran out, uniformly in the fuel).
-/

namespace ScandEval

/-- Python `x or d` on an optional integer: both `None` and `0` are falsy
and fall back to the default `d`. -/
def pyOr (x : Option Int) (d : Int) : Int :=
  match x with
  | none => d
  | some v => if v = 0 then d else v

/-- The slice of the Hugging Face `PretrainedConfig` read by this module:
the three token-id fields, each possibly absent. -/
structure PretrainedConfig where
  bos_token_id : Option Int
  eos_token_id : Option Int
  pad_token_id : Option Int
  deriving DecidableEq

/-- A tiktoken `Encoding`: abstract byte-pair encode/decode maps
(`encoding.encode` with the allowed-special set, and `encoding.decode`). -/
structure Encoding where
  encode : String → List Int
  decode : List Int → String

/-- The model configuration slice used here: the model identifier. -/
structure ModelConfig where
  model_id : String

/-- The `OpenAITokenizer` object: special-token ids resolved from the
Hugging Face config, the pad-token literal, and the tiktoken encoding. -/
structure OpenAITokenizer where
  encoding : Encoding
  bos_token_id : Int
  cls_token_id : Int
  eos_token_id : Int
  sep_token_id : Int
  pad_token_id : Int
  bos_token : String
  cls_token : String
  eos_token : String
  sep_token : String
  pad_token : String

/-- `OpenAITokenizer.__init__`: each id is `hf.<role>_token_id or -1`
(Python truthiness, so `None` and `0` both fall back to `-1`); `cls`
aliases `bos`, `sep` aliases `eos`; the pad token text is the literal
`"<pad>"`; the token strings are decoded from the resolved ids. -/
def OpenAITokenizer.ofConfig (enc : Encoding) (hf : PretrainedConfig) : OpenAITokenizer :=
  let bos := pyOr hf.bos_token_id (-1)
  let eos := pyOr hf.eos_token_id (-1)
  let pad := pyOr hf.pad_token_id (-1)
  { encoding := enc
    bos_token_id := bos
    cls_token_id := bos
    eos_token_id := eos
    sep_token_id := eos
    pad_token_id := pad
    bos_token := enc.decode [bos]
    cls_token := enc.decode [bos]
    eos_token := enc.decode [eos]
    sep_token := enc.decode [eos]
    pad_token := "<pad>" }

/-- Length of the longest row of a batch (0 for an empty batch). -/
def maxLen (xss : List (List Int)) : Nat :=
  xss.foldr (fun xs r => max xs.length r) 0

/-- Right-pad one row to length `m` with the pad id (as
`torch.nn.utils.rnn.pad_sequence` with `batch_first=True` does per row). -/
def padRight (pad : Int) (m : Nat) (xs : List Int) : List Int :=
  xs ++ List.replicate (m - xs.length) pad

/-- Right-pad every row of a batch to the longest row, `pad_sequence`. -/
def padBatch (pad : Int) (xss : List (List Int)) : List (List Int) :=
  xss.map (padRight pad (maxLen xss))

/-- `OpenAITokenizer.__call__` on a list of strings (a single string is
first wrapped in a singleton list): encode each string, then right-pad
the batch to equal length with the pad token id. -/
def OpenAITokenizer.call (tok : OpenAITokenizer) (texts : List String) :
    List (List Int) :=
  let input_ids := texts.map tok.encoding.encode
  padBatch tok.pad_token_id input_ids

/-- `OpenAITokenizer.decode`: drop every occurrence of the pad token id,
then decode the remaining ids with the tiktoken encoding. -/
def OpenAITokenizer.decode (tok : OpenAITokenizer) (token_ids : List Int) : String :=
  tok.encoding.decode (token_ids.filter (fun token_id => token_id != tok.pad_token_id))

/-- A concrete executable encoding used for witnesses: a character codec
(one token id per character). -/
def charEnc : Encoding where
  encode s := s.toList.map (fun c => (c.toNat : Int))
  decode ids := String.mk (ids.map (fun i => Char.ofNat i.toNat))

/-- Tokenizer used by witnesses: built from a config whose pad id is 7. -/
def witTok : OpenAITokenizer :=
  OpenAITokenizer.ofConfig charEnc ⟨none, none, some 7⟩

theorem length_le_maxLen {xs : List Int} {xss : List (List Int)}
    (h : xs ∈ xss) : xs.length ≤ maxLen xss := by
  induction xss with
  | nil => cases h
  | cons y ys ih =>
      rcases List.mem_cons.mp h with rfl | hmem
      · exact le_max_left _ _
      · exact le_trans (ih hmem) (le_max_right _ _)

theorem padRight_length {pad : Int} {m : Nat} {xs : List Int}
    (h : xs.length ≤ m) : (padRight pad m xs).length = m := by
  simp [padRight]
  omega

/-- The slice of the (external) `transformers.GenerationConfig` read by
`generate`, with the default values documented by that library.  Float
fields are modelled as rationals. -/
structure GenerationConfig where
  max_length : Int := 20
  temperature : Rat := 1
  top_p : Rat := 1
  repetition_penalty : Rat := 1
  num_return_sequences : Int := 1
  deriving DecidableEq

/-- The default generation configuration, `GenerationConfig()`. -/
def defaultGenerationConfig : GenerationConfig := {}

/-- One keyword override passed to `generate`, naming a field of the
generation configuration together with its new value. -/
inductive GCOverride
  | max_length (n : Int)
  | temperature (x : Rat)
  | top_p (x : Rat)
  | repetition_penalty (x : Rat)
  | num_return_sequences (n : Int)
  deriving DecidableEq

/-- The names of the generation-configuration fields. -/
inductive GCField
  | max_length
  | temperature
  | top_p
  | repetition_penalty
  | num_return_sequences
  deriving DecidableEq

/-- A field value, integer or rational. -/
inductive GCVal
  | i (n : Int)
  | r (x : Rat)
  deriving DecidableEq

/-- The field an override assigns. -/
def GCOverride.field : GCOverride → GCField
  | .max_length _ => .max_length
  | .temperature _ => .temperature
  | .top_p _ => .top_p
  | .repetition_penalty _ => .repetition_penalty
  | .num_return_sequences _ => .num_return_sequences

/-- The value an override assigns. -/
def GCOverride.val : GCOverride → GCVal
  | .max_length n => .i n
  | .temperature x => .r x
  | .top_p x => .r x
  | .repetition_penalty x => .r x
  | .num_return_sequences n => .i n

/-- Read one field of a generation configuration. -/
def GenerationConfig.get (cfg : GenerationConfig) : GCField → GCVal
  | .max_length => .i cfg.max_length
  | .temperature => .r cfg.temperature
  | .top_p => .r cfg.top_p
  | .repetition_penalty => .r cfg.repetition_penalty
  | .num_return_sequences => .i cfg.num_return_sequences

/-- `setattr(generation_config, key, value)` for one override. -/
def setattr (cfg : GenerationConfig) : GCOverride → GenerationConfig
  | .max_length n => { cfg with max_length := n }
  | .temperature x => { cfg with temperature := x }
  | .top_p x => { cfg with top_p := x }
  | .repetition_penalty x => { cfg with repetition_penalty := x }
  | .num_return_sequences n => { cfg with num_return_sequences := n }

/-- Lines 173-177 of `generate`: when no configuration is provided, build
`GenerationConfig(**generation_kwargs)` (a fresh object); otherwise apply
each keyword override to the provided object with `setattr`.  The boolean
records whether the result is the very object the caller passed in,
mutated in place (`true`), or a fresh object (`false`). -/
def resolveConfig : Option GenerationConfig → List GCOverride → GenerationConfig × Bool
  | none, kws => (kws.foldl setattr defaultGenerationConfig, false)
  | some cfg, kws => (kws.foldl setattr cfg, true)

/-- The value assigned to field `f` by the last override of `f` in the
list, if any. -/
def lastAssigned (f : GCField) : List GCOverride → Option GCVal
  | [] => none
  | o :: rest =>
    match lastAssigned f rest with
    | some v => some v
    | none => if o.field = f then some o.val else none

theorem setattr_get (cfg : GenerationConfig) (o : GCOverride) (f : GCField) :
    (setattr cfg o).get f = if o.field = f then o.val else cfg.get f := by
  cases o <;> cases f <;>
    simp [setattr, GenerationConfig.get, GCOverride.field, GCOverride.val]

theorem foldl_setattr_get (f : GCField) :
    ∀ (kws : List GCOverride) (cfg : GenerationConfig),
      (kws.foldl setattr cfg).get f = (lastAssigned f kws).getD (cfg.get f) := by
  intro kws
  induction kws with
  | nil => intro cfg; simp [lastAssigned]
  | cons o rest ih =>
      intro cfg
      rw [List.foldl_cons, ih]
      cases hrest : lastAssigned f rest with
      | some v => simp [lastAssigned, hrest]
      | none =>
          by_cases ho : o.field = f <;>
            simp [lastAssigned, hrest, ho, setattr_get]

/-- A choice of a completion-endpoint response (`choice.text`). -/
structure CompletionChoice where
  text : String
  deriving DecidableEq

/-- A choice of a chat-endpoint response (`choice.message.content`). -/
structure ChatChoice where
  content : String
  deriving DecidableEq

/-- Outcome of one remote API call as seen by the Python client: a
payload, or one of the `openai.error` exception classes. -/
inductive ApiOutcome (α : Type)
  | ok (a : α)
  | rateLimitError
  | apiError
  | invalidRequestError (msg : String)
  | otherError
  deriving DecidableEq

/-- Exceptions that can escape `generate`. -/
inductive PyError
  | rateLimitError
  | apiError
  | invalidRequestError (msg : String)
  | otherError
  | typeError
  | indexError
  deriving DecidableEq

/-- The exception corresponding to an error outcome (`ok` unused). -/
def ApiOutcome.toError {α : Type} : ApiOutcome α → PyError
  | .ok _ => .otherError
  | .rateLimitError => .rateLimitError
  | .apiError => .apiError
  | .invalidRequestError msg => .invalidRequestError msg
  | .otherError => .otherError

/-- The environment: the outcome of the k-th remote call of this
`generate` invocation, for each of the two endpoints.  Call 0 is the
classification probe (a completion call); the dispatch loop makes calls
1, 2, ... on the endpoint selected by the classification. -/
structure Oracle where
  completion : Nat → ApiOutcome (List CompletionChoice)
  chat : Nat → ApiOutcome (List ChatChoice)

/-- A torch tensor of integers, 1-D or 2-D. -/
inductive PyTensor
  | dim1 (xs : List Int)
  | dim2 (xss : List (List Int))
  deriving DecidableEq

/-- The stripped `inputs_list` local: a flat list of ids for a 1-D input,
a list of rows for a 2-D input. -/
inductive InputsList
  | flat (xs : List Int)
  | nested (xss : List (List Int))
  deriving DecidableEq

/-- Lines 181-196 of `generate`: keep a token id iff it differs from the
raw `self.config.pad_token_id` (Python `!=`, under which every integer
differs from `None`). -/
def stripPads (pad : Option Int) (xs : List Int) : List Int :=
  xs.filter (fun token_id => some token_id != pad)

/-- The chat-model indicator searched for in the probe error text. -/
def chatModelIndicator : String := "This is a chat model"

/-- Python `needle in hay` on strings. -/
def containsSubstr (needle hay : String) : Bool :=
  decide (needle.toList <:+: hay.toList)

/-- Lines 198-210 of `generate`: classify the backend from the probe
outcome.  Success means a completion backend (`is_chat_model = False`);
an `InvalidRequestError` whose text contains the chat-model indicator
means a chat backend; every other exception propagates unchanged. -/
def classifyReply : ApiOutcome (List CompletionChoice) → Except PyError Bool
  | .ok _ => .ok false
  | .invalidRequestError msg =>
      if containsSubstr chatModelIndicator msg then .ok true
      else .error (.invalidRequestError msg)
  | .rateLimitError => .error .rateLimitError
  | .apiError => .error .apiError
  | .otherError => .error .otherError

/-- The backend classification. -/
inductive Backend
  | completion
  | chat
  deriving DecidableEq

/-- `tokenizer(text)["input_ids"][0].tolist()` on one string: encode it
through the tokenizer call (a singleton batch needs no padding). -/
def retokenize (tok : OpenAITokenizer) (s : String) : List Int :=
  (tok.call [s]).headD []

/-- Result of one pass through the body of the `while True` loop. -/
inductive AttemptResult
  | success (ids : List (List Int)) (next : Nat)
  | retryable (next : Nat)
  | fatal (e : PyError)
  deriving DecidableEq

/-- One pass through the chat branch (lines 236-263): one chat call per
input row, strictly in order, starting at call index `k`.  The first
choice of each response is stripped of surrounding whitespace and
re-tokenized; an empty choice list raises `IndexError`; a rate-limit or
generic API error makes the whole attempt retryable; other errors are
fatal. -/
def chatAttempt (tok : OpenAITokenizer) (o : Oracle) :
    Nat → List (List Int) → List (List Int) → AttemptResult
  | k, [], acc => .success acc k
  | k, _input_ids :: rest, acc =>
    match o.chat k with
    | .ok [] => .fatal .indexError
    | .ok (c :: _) =>
        chatAttempt tok o (k + 1) rest (acc ++ [retokenize tok c.content.trim])
    | .rateLimitError => .retryable (k + 1)
    | .apiError => .retryable (k + 1)
    | .invalidRequestError msg => .fatal (.invalidRequestError msg)
    | .otherError => .fatal .otherError

/-- One pass through the completion branch (lines 216-233): a single
batched completion call; each returned choice is stripped of surrounding
whitespace and re-tokenized, 1:1 in order. -/
def completionAttempt (tok : OpenAITokenizer) (o : Oracle) (k : Nat) : AttemptResult :=
  match o.completion k with
  | .ok choices =>
      .success (choices.map (fun c => retokenize tok c.text.trim)) (k + 1)
  | .rateLimitError => .retryable (k + 1)
  | .apiError => .retryable (k + 1)
  | .invalidRequestError msg => .fatal (.invalidRequestError msg)
  | .otherError => .fatal .otherError

/-- One pass through the loop body, either branch.  In the chat branch a
1-D (flat) input makes the code call `tokenizer.decode` on a single
integer while building the first request; iterating that integer raises
`TypeError` before any call is made.  A flat empty input runs the chat
loop zero times and succeeds with an empty list. -/
def attemptOnce (tok : OpenAITokenizer) (o : Oracle) (is_chat_model : Bool)
    (inputs_list : InputsList) (k : Nat) : AttemptResult :=
  if is_chat_model then
    match inputs_list with
    | .flat [] => .success [] k
    | .flat (_ :: _) => .fatal .typeError
    | .nested xss => chatAttempt tok o k xss []
  else
    completionAttempt tok o k

/-- Outcome of the `while True` loop, with the number of 10-second
sleeps performed. -/
inductive LoopOutcome
  | diverged (sleeps : Nat)
  | raised (e : PyError) (sleeps : Nat)
  | done (ids : List (List Int)) (sleeps : Nat)
  deriving DecidableEq

/-- The `while True` loop of lines 212-276, run with `fuel` remaining
iterations from call index `k` with `s` sleeps so far.  The chat branch
ends with `break` on success; the completion branch has no `break`, so
its successful result is discarded and the loop runs again.  A caught
`RateLimitError` or `APIError` sleeps 10 seconds and retries; other
exceptions propagate. -/
def generateLoop (tok : OpenAITokenizer) (o : Oracle) (is_chat_model : Bool)
    (inputs_list : InputsList) : Nat → Nat → Nat → LoopOutcome
  | 0, _, s => .diverged s
  | fuel + 1, k, s =>
    match attemptOnce tok o is_chat_model inputs_list k with
    | .success ids k1 =>
        if is_chat_model then .done ids s
        else generateLoop tok o is_chat_model inputs_list fuel k1 s
    | .retryable k1 => generateLoop tok o is_chat_model inputs_list fuel k1 (s + 1)
    | .fatal e => .raised e s

/-- `torch.LongTensor` of a list of id lists: an empty list gives an
empty 1-D tensor, otherwise a 2-D tensor (one row per inner list). -/
def longTensorOfLists : List (List Int) → PyTensor
  | [] => .dim1 []
  | xss => .dim2 xss

/-- How a `generate` invocation ended. -/
inductive GenResult
  | raised (e : PyError)
  | diverged
  | returns (t : PyTensor)
  deriving DecidableEq

/-- Observable trace of one `generate` invocation: its result, the
backend classified by the probe of this very call (none if the probe
raised), the number of 10-second sleeps, the token-id payload sent as
the prompt of completion-style requests (the stripped `inputs_list`),
the resolved generation configuration, and whether that configuration is
the caller-supplied object mutated in place. -/
structure GenTrace where
  result : GenResult
  backend : Option Backend
  sleeps : Nat
  sent : InputsList
  gcUsed : GenerationConfig
  gcMutatesCaller : Bool
  deriving DecidableEq

/-- The `OpenAIModel` object (dataset and benchmark configurations are
plain passthrough and omitted). -/
structure OpenAIModel where
  model_config : ModelConfig
  config : PretrainedConfig
  tokenizer : OpenAITokenizer

/-- `inputs.dim() == 2`. -/
def multipleInputs : PyTensor → Bool
  | .dim2 _ => true
  | .dim1 _ => false

/-- The stripped `inputs_list` computed on lines 181-196: strip the raw
config pad id from each sequence (or from the single flat sequence). -/
def inputsListOf (m : OpenAIModel) : PyTensor → InputsList
  | .dim2 xss => .nested (xss.map (stripPads m.config.pad_token_id))
  | .dim1 xs => .flat (stripPads m.config.pad_token_id xs)

/-- `OpenAIModel.generate` (lines 151-286): resolve the generation
configuration, strip the raw config pad id from the inputs, classify the
backend with a probe (call 0), run the dispatch loop, and reassemble the
output — re-padding with the tokenizer pad id for a 2-D input, or
building a `LongTensor` from the (list of) output lists for a 1-D
input. -/
def OpenAIModel.generate (m : OpenAIModel) (o : Oracle) (fuel : Nat)
    (inputs : PyTensor) (generation_config : Option GenerationConfig)
    (generation_kwargs : List GCOverride) : GenTrace :=
  let rc := resolveConfig generation_config generation_kwargs
  let multiple_inputs : Bool := multipleInputs inputs
  let inputs_list : InputsList := inputsListOf m inputs
  match classifyReply (o.completion 0) with
  | .error e =>
      { result := .raised e, backend := none, sleeps := 0
        sent := inputs_list, gcUsed := rc.1, gcMutatesCaller := rc.2 }
  | .ok is_chat_model =>
      let backend : Backend := if is_chat_model then .chat else .completion
      match generateLoop m.tokenizer o is_chat_model inputs_list fuel 1 0 with
      | .diverged s =>
          { result := .diverged, backend := some backend, sleeps := s
            sent := inputs_list, gcUsed := rc.1, gcMutatesCaller := rc.2 }
      | .raised e s =>
          { result := .raised e, backend := some backend, sleeps := s
            sent := inputs_list, gcUsed := rc.1, gcMutatesCaller := rc.2 }
      | .done ids s =>
          { result := .returns
              (if multiple_inputs then
                .dim2 (padBatch m.tokenizer.pad_token_id ids)
              else longTensorOfLists ids)
            backend := some backend, sleeps := s
            sent := inputs_list, gcUsed := rc.1, gcMutatesCaller := rc.2 }

/-! Concrete models and oracles used by counterexamples and witnesses. -/

/-- A model whose config provides pad id 7 (tokenizer built from the
same config). -/
def bugModel : OpenAIModel :=
  { model_config := ⟨"some-model"⟩
    config := ⟨none, none, some 7⟩
    tokenizer := OpenAITokenizer.ofConfig charEnc ⟨none, none, some 7⟩ }

/-- An oracle on which every remote call succeeds. -/
def okOracle : Oracle :=
  ⟨fun _ => .ok [⟨"ab"⟩, ⟨"c"⟩], fun _ => .ok [⟨"hi"⟩]⟩

/-- An oracle on which every remote call raises a rate-limit error. -/
def allRateLimitOracle : Oracle :=
  ⟨fun _ => .rateLimitError, fun _ => .rateLimitError⟩

/-- An oracle whose probe reports the chat-model condition and whose
chat calls succeed with two choices. -/
def chatOracle : Oracle :=
  ⟨fun _ => .invalidRequestError "This is a chat model", fun _ => .ok [⟨" hi "⟩, ⟨"zz"⟩]⟩

/-- C4, counterexample: a configuration that provides the token id 0 for
every role yields the sentinel -1, not 0 — Python `0 or -1` is -1, so a
provided id of 0 is not kept. -/
theorem c4_counterexample :
    (OpenAITokenizer.ofConfig charEnc ⟨some 0, some 0, some 0⟩).pad_token_id = -1 ∧
    (OpenAITokenizer.ofConfig charEnc ⟨some 0, some 0, some 0⟩).pad_token_id ≠ 0 ∧
    (OpenAITokenizer.ofConfig charEnc ⟨some 0, some 0, some 0⟩).bos_token_id = -1 ∧
    (OpenAITokenizer.ofConfig charEnc ⟨some 0, some 0, some 0⟩).eos_token_id = -1 := by
  refine ⟨rfl, by decide, rfl, rfl⟩

/-- C4, amended: for every reference configuration and for each token
role independently, the constructed id equals the configuration id when
that field is provided and nonzero, and equals -1 when the field is
absent or provided as 0 (Python truthiness); `cls` mirrors `bos`, `sep`
mirrors `eos`, and the pad token text is the fixed literal. -/
theorem c4_special_token_ids_amended (enc : Encoding) (hf : PretrainedConfig) :
    ((hf.bos_token_id = none ∨ hf.bos_token_id = some 0 →
        (OpenAITokenizer.ofConfig enc hf).bos_token_id = -1) ∧
      ∀ v : Int, v ≠ 0 → hf.bos_token_id = some v →
        (OpenAITokenizer.ofConfig enc hf).bos_token_id = v) ∧
    ((hf.eos_token_id = none ∨ hf.eos_token_id = some 0 →
        (OpenAITokenizer.ofConfig enc hf).eos_token_id = -1) ∧
      ∀ v : Int, v ≠ 0 → hf.eos_token_id = some v →
        (OpenAITokenizer.ofConfig enc hf).eos_token_id = v) ∧
    ((hf.pad_token_id = none ∨ hf.pad_token_id = some 0 →
        (OpenAITokenizer.ofConfig enc hf).pad_token_id = -1) ∧
      ∀ v : Int, v ≠ 0 → hf.pad_token_id = some v →
        (OpenAITokenizer.ofConfig enc hf).pad_token_id = v) ∧
    (OpenAITokenizer.ofConfig enc hf).cls_token_id
        = (OpenAITokenizer.ofConfig enc hf).bos_token_id ∧
    (OpenAITokenizer.ofConfig enc hf).sep_token_id
        = (OpenAITokenizer.ofConfig enc hf).eos_token_id ∧
    (OpenAITokenizer.ofConfig enc hf).pad_token = "<pad>" := by
  have falsy : ∀ x : Option Int, (x = none ∨ x = some 0) → pyOr x (-1) = -1 := by
    rintro x (rfl | rfl) <;> simp [pyOr]
  have nonzero : ∀ v : Int, v ≠ 0 → ∀ x : Option Int, x = some v →
      pyOr x (-1) = v := by
    intro v hv x hx
    rw [hx]
    simp [pyOr, hv]
  exact ⟨⟨fun h => falsy _ h, fun v hv hx => nonzero v hv _ hx⟩,
    ⟨fun h => falsy _ h, fun v hv hx => nonzero v hv _ hx⟩,
    ⟨fun h => falsy _ h, fun v hv hx => nonzero v hv _ hx⟩,
    rfl, rfl, rfl⟩

/-- C4, amended, witness: a mixed configuration, with bos absent, eos
provided as 0 and pad provided as 7. -/
theorem c4_special_token_ids_amended_witness :
    (OpenAITokenizer.ofConfig charEnc ⟨none, some 0, some 7⟩).bos_token_id = -1 ∧
    (OpenAITokenizer.ofConfig charEnc ⟨none, some 0, some 7⟩).eos_token_id = -1 ∧
    (OpenAITokenizer.ofConfig charEnc ⟨none, some 0, some 7⟩).pad_token_id = 7 ∧
    (OpenAITokenizer.ofConfig charEnc ⟨none, some 0, some 7⟩).cls_token_id
        = (OpenAITokenizer.ofConfig charEnc ⟨none, some 0, some 7⟩).bos_token_id ∧
    (OpenAITokenizer.ofConfig charEnc ⟨none, some 0, some 7⟩).sep_token_id
        = (OpenAITokenizer.ofConfig charEnc ⟨none, some 0, some 7⟩).eos_token_id ∧
    (OpenAITokenizer.ofConfig charEnc ⟨none, some 0, some 7⟩).pad_token = "<pad>" :=
  ⟨(c4_special_token_ids_amended charEnc ⟨none, some 0, some 7⟩).1.1 (Or.inl rfl),
    (c4_special_token_ids_amended charEnc ⟨none, some 0, some 7⟩).2.1.1 (Or.inr rfl),
    (c4_special_token_ids_amended charEnc ⟨none, some 0, some 7⟩).2.2.1.2 7
      (by decide) rfl,
    (c4_special_token_ids_amended charEnc ⟨none, some 0, some 7⟩).2.2.2.1,
    (c4_special_token_ids_amended charEnc ⟨none, some 0, some 7⟩).2.2.2.2.1,
    (c4_special_token_ids_amended charEnc ⟨none, some 0, some 7⟩).2.2.2.2.2⟩

/-- C6: batch encoding returns one row per input string; the rows map
1:1 and in order to the strings, each row is the encoding of its string
followed by pad-id entries, and every row has the common length equal to
the longest encoding in the batch. -/
theorem c6_tokenizer_call_shape (tok : OpenAITokenizer) (texts : List String)
    (h : texts ≠ []) :
    (tok.call texts).length = texts.length ∧
    List.Forall₂ (fun t row =>
        row = tok.encoding.encode t ++
          List.replicate (maxLen (texts.map tok.encoding.encode) -
            (tok.encoding.encode t).length) tok.pad_token_id ∧
        row.length = maxLen (texts.map tok.encoding.encode))
      texts (tok.call texts) := by
  constructor
  · simp [OpenAITokenizer.call, padBatch]
  · have hcall : tok.call texts =
        texts.map (fun t => padRight tok.pad_token_id
          (maxLen (texts.map tok.encoding.encode)) (tok.encoding.encode t)) := by
      simp [OpenAITokenizer.call, padBatch, List.map_map, Function.comp]
    rw [hcall, List.forall₂_map_right_iff, List.forall₂_same]
    intro t ht
    refine ⟨rfl, padRight_length ?_⟩
    exact length_le_maxLen (List.mem_map_of_mem _ ht)

/-- C6, witness. -/
theorem c6_tokenizer_call_shape_witness :
    (["ab", "c"] : List String) ≠ [] ∧ (witTok.call ["ab", "c"]).length = 2 :=
  ⟨by decide, (c6_tokenizer_call_shape witTok ["ab", "c"] (by decide)).1⟩

/-- C8: decode drops exactly the entries equal to the pad token id,
preserving order, and decodes the remainder; in particular a list free
of the pad id is decoded unchanged, so no other id is ever filtered. -/
theorem c8_decode_filters_only_pad (tok : OpenAITokenizer) (ids : List Int) :
    tok.decode ids =
      tok.encoding.decode (ids.filter (fun t => decide (t ≠ tok.pad_token_id))) ∧
    (tok.pad_token_id ∉ ids → tok.decode ids = tok.encoding.decode ids) := by
  have hfilter : ids.filter (fun t => t != tok.pad_token_id) =
      ids.filter (fun t => decide (t ≠ tok.pad_token_id)) := by
    apply List.filter_congr
    intro a _
    by_cases hq : a = tok.pad_token_id <;> simp [hq]
  constructor
  · rw [OpenAITokenizer.decode, hfilter]
  · intro hmem
    rw [OpenAITokenizer.decode]
    congr 1
    apply List.filter_eq_self.mpr
    intro a ha
    have : a ≠ tok.pad_token_id := fun hq => hmem (hq ▸ ha)
    simp [this]

/-- C8, witness: a pad-free list is decoded unchanged. -/
theorem c8_decode_filters_only_pad_witness :
    witTok.decode [5, 9] = witTok.encoding.decode [5, 9] :=
  (c8_decode_filters_only_pad witTok [5, 9]).2 (by decide)

/-- C9: with a provided configuration, the result of configuration
resolution is the very configuration object the caller passed in,
mutated in place (flag `true`), and each of its fields holds the value
of the last keyword override naming it, or its prior value if none does;
with no provided configuration a fresh default-based object is built
from the overrides (flag `false`). -/
theorem c9_generation_config_override (cfg : GenerationConfig)
    (kws : List GCOverride) (f : GCField) :
    (resolveConfig (some cfg) kws).2 = true ∧
    (resolveConfig (some cfg) kws).1.get f = (lastAssigned f kws).getD (cfg.get f) ∧
    (resolveConfig none kws).2 = false ∧
    (resolveConfig none kws).1.get f =
      (lastAssigned f kws).getD (defaultGenerationConfig.get f) :=
  ⟨rfl, foldl_setattr_get f kws cfg, rfl, foldl_setattr_get f kws defaultGenerationConfig⟩

theorem completionLoop_diverges (tok : OpenAITokenizer) (o : Oracle)
    (il : InputsList) (hok : ∀ k, ∃ cs, o.completion k = .ok cs) :
    ∀ fuel k s, generateLoop tok o false il fuel k s = .diverged s := by
  intro fuel
  induction fuel with
  | zero => intro k s; rfl
  | succ n ih =>
      intro k s
      rcases hok k with ⟨cs, hcs⟩
      simp [generateLoop, attemptOnce, completionAttempt, hcs, ih]

theorem generate_raised_of_classify_error (m : OpenAIModel) (o : Oracle)
    (fuel : Nat) (inputs : PyTensor) (gc : Option GenerationConfig)
    (kws : List GCOverride) (e : PyError)
    (h : classifyReply (o.completion 0) = .error e) :
    (m.generate o fuel inputs gc kws).result = .raised e ∧
    (m.generate o fuel inputs gc kws).sleeps = 0 ∧
    (m.generate o fuel inputs gc kws).backend = none := by
  simp [OpenAIModel.generate, h]

theorem generate_of_classify_ok (m : OpenAIModel) (o : Oracle)
    (fuel : Nat) (inputs : PyTensor) (gc : Option GenerationConfig)
    (kws : List GCOverride) (b : Bool) (out : LoopOutcome)
    (h : classifyReply (o.completion 0) = .ok b)
    (hl : generateLoop m.tokenizer o b (inputsListOf m inputs) fuel 1 0 = out) :
    (m.generate o fuel inputs gc kws).backend
        = some (if b then .chat else .completion) ∧
    (m.generate o fuel inputs gc kws).result =
      (match out with
        | .diverged _ => .diverged
        | .raised e _ => .raised e
        | .done ids _ => .returns
            (if multipleInputs inputs then
              .dim2 (padBatch m.tokenizer.pad_token_id ids)
            else longTensorOfLists ids)) ∧
    (m.generate o fuel inputs gc kws).sleeps =
      (match out with
        | .diverged s => s
        | .raised _ s => s
        | .done _ s => s) := by
  simp only [OpenAIModel.generate, h, hl]
  cases out <;> exact ⟨rfl, rfl, rfl⟩

/-- C1 (code bug): with a completion-style backend and a remote endpoint
that answers every batched request successfully, `generate` never
returns: the completion branch of the retry loop has no `break`, so the
loop re-issues the batched request after every success.  For every fuel
bound the loop is still running (`diverged`), although the probe did
classify the backend as completion-style. -/
theorem c1_completion_generate_never_returns :
    ∀ fuel : Nat,
      (bugModel.generate okOracle fuel (.dim2 [[3, 1], [2, 2]]) none []).result
          = .diverged ∧
      (bugModel.generate okOracle fuel (.dim2 [[3, 1], [2, 2]]) none []).backend
          = some .completion := by
  intro fuel
  have hloop := completionLoop_diverges bugModel.tokenizer okOracle
    (inputsListOf bugModel (.dim2 [[3, 1], [2, 2]]))
    (fun k => ⟨[⟨"ab"⟩, ⟨"c"⟩], rfl⟩) fuel 1 0
  have h := generate_of_classify_ok bugModel okOracle fuel
    (.dim2 [[3, 1], [2, 2]]) none [] false (.diverged 0) rfl hloop
  exact ⟨h.2.1, h.1⟩

/-- C2, counterexample: a rate-limit error raised by the
backend-classification probe is not retried: `generate` propagates it
immediately, with no sleep. -/
theorem c2_counterexample :
    (bugModel.generate allRateLimitOracle 5 (.dim2 [[3, 1]]) none []).result
        = .raised .rateLimitError ∧
    (bugModel.generate allRateLimitOracle 5 (.dim2 [[3, 1]]) none []).sleeps = 0 :=
  ⟨rfl, rfl⟩

/-- C2, amended: rate-limit and generic API errors are retried after one
fixed 10-second sleep only when they arise inside the dispatch loop, and
the retry repeats the dispatch only — the backend classification is not
re-run (it happens once, before the loop).  An error of either kind
raised by the probe itself propagates immediately, with no sleep and no
retry.  The loop-step equations hold at every remaining fuel and call
index, so retrying is unbounded. -/
theorem c2_retry_policy_amended (m : OpenAIModel) (o : Oracle)
    (fuel k s : Nat) (inputs : PyTensor) (gc : Option GenerationConfig)
    (kws : List GCOverride) (il : InputsList) (x : List Int)
    (xss : List (List Int))
    (hprobe : o.completion 0 = .rateLimitError ∨ o.completion 0 = .apiError)
    (hchat : o.chat k = .rateLimitError ∨ o.chat k = .apiError)
    (hcomp : o.completion k = .rateLimitError ∨ o.completion k = .apiError) :
    ((m.generate o fuel inputs gc kws).result
        = .raised ((o.completion 0).toError) ∧
     (m.generate o fuel inputs gc kws).sleeps = 0 ∧
     (m.generate o fuel inputs gc kws).backend = none) ∧
    (generateLoop m.tokenizer o true (.nested (x :: xss)) (fuel + 1) k s =
      generateLoop m.tokenizer o true (.nested (x :: xss)) fuel (k + 1) (s + 1)) ∧
    (generateLoop m.tokenizer o false il (fuel + 1) k s =
      generateLoop m.tokenizer o false il fuel (k + 1) (s + 1)) := by
  refine ⟨?_, ?_, ?_⟩
  · refine generate_raised_of_classify_error m o fuel inputs gc kws _ ?_
    rcases hprobe with h | h <;> rw [h] <;> rfl
  · rcases hchat with h | h <;>
      simp [generateLoop, attemptOnce, chatAttempt, h]
  · rcases hcomp with h | h <;>
      simp [generateLoop, attemptOnce, completionAttempt, h]

/-- C2, amended, witness. -/
theorem c2_retry_policy_amended_witness :
    (((bugModel.generate allRateLimitOracle 4 (.dim1 [3]) none []).result
        = .raised ((allRateLimitOracle.completion 0).toError) ∧
      (bugModel.generate allRateLimitOracle 4 (.dim1 [3]) none []).sleeps = 0 ∧
      (bugModel.generate allRateLimitOracle 4 (.dim1 [3]) none []).backend = none) ∧
     (generateLoop bugModel.tokenizer allRateLimitOracle true
          (.nested ([5] :: [])) (4 + 1) 1 0 =
        generateLoop bugModel.tokenizer allRateLimitOracle true
          (.nested ([5] :: [])) 4 (1 + 1) (0 + 1)) ∧
     (generateLoop bugModel.tokenizer allRateLimitOracle false (.flat [3]) (4 + 1) 1 0 =
        generateLoop bugModel.tokenizer allRateLimitOracle false (.flat [3]) 4 (1 + 1) (0 + 1))) :=
  c2_retry_policy_amended bugModel allRateLimitOracle 4 1 0 (.dim1 [3]) none []
    (.flat [3]) [5] [] (Or.inl rfl) (Or.inl rfl) (Or.inl rfl)

/-- C3 (code bug): for a 1-D input and a chat-classified backend,
`generate` raises a `TypeError` instead of returning a tensor: building
the first chat request calls `tokenizer.decode` on a single integer, and
iterating that integer fails.  (With a completion-classified backend a
1-D input never returns either, as the loop never exits.) -/
theorem c3_single_sequence_raises :
    (bugModel.generate chatOracle 5 (.dim1 [3, 1]) none []).result
        = .raised .typeError ∧
    (bugModel.generate chatOracle 5 (.dim1 [3, 1]) none []).backend
        = some .chat :=
  ⟨rfl, rfl⟩

theorem generate_sent (m : OpenAIModel) (o : Oracle) (fuel : Nat)
    (inputs : PyTensor) (gc : Option GenerationConfig) (kws : List GCOverride) :
    (m.generate o fuel inputs gc kws).sent = inputsListOf m inputs := by
  unfold OpenAIModel.generate
  cases h : classifyReply (o.completion 0) with
  | error e => simp [h]
  | ok b =>
      cases h2 : generateLoop m.tokenizer o b (inputsListOf m inputs) fuel 1 0 <;>
        simp [h, h2]

theorem stripPads_some (p : Int) (xs : List Int) :
    stripPads (some p) xs = xs.filter (fun t => decide (t ≠ p)) := by
  unfold stripPads
  apply List.filter_congr
  intro a _
  by_cases hq : a = p <;> simp [hq]

/-- A model whose config provides no pad id at all; its tokenizer (built
from the same config) therefore pads with the sentinel -1. -/
def noPadModel : OpenAIModel :=
  { model_config := ⟨"some-model"⟩
    config := ⟨none, none, none⟩
    tokenizer := OpenAITokenizer.ofConfig charEnc ⟨none, none, none⟩ }

/-- C5, counterexample: with a config lacking a pad id, the tokenizer
pads batches with the sentinel -1, but the stripping step compares each
id against the raw config value `None`, which no integer equals, so the
prompt sent to the completion endpoint still contains the pad id -1. -/
theorem c5_counterexample :
    noPadModel.tokenizer.pad_token_id = -1 ∧
    noPadModel.tokenizer.call ["ab", "c"] = [[97, 98], [99, -1]] ∧
    (noPadModel.generate okOracle 5
        (.dim2 (noPadModel.tokenizer.call ["ab", "c"])) none []).sent
      = .nested [[97, 98], [99, -1]] ∧
    noPadModel.tokenizer.pad_token_id ∈ ([99, -1] : List Int) :=
  ⟨rfl, by decide, by decide, by decide⟩

/-- C5, amended: the inputs are stripped of the raw Hugging Face config
pad id, and the output batch is re-padded with the tokenizer pad id
(config pad id with `-1` as falsy fallback); when the config provides a
nonzero pad id `p` the two agree — the sequences sent contain no
occurrence of `p` and re-padding reinserts exactly `p`. -/
theorem c5_pad_strip_repad_amended (mc : ModelConfig) (enc : Encoding)
    (hf : PretrainedConfig) (o : Oracle) (fuel : Nat) (xss : List (List Int))
    (gc : Option GenerationConfig) (kws : List GCOverride) (p : Int)
    (hp : hf.pad_token_id = some p) (hp0 : p ≠ 0) :
    ((OpenAIModel.mk mc hf (OpenAITokenizer.ofConfig enc hf)).generate
        o fuel (.dim2 xss) gc kws).sent
      = .nested (xss.map (List.filter (fun t => decide (t ≠ p)))) ∧
    (∀ row ∈ xss.map (List.filter (fun t => decide (t ≠ p))), p ∉ row) ∧
    (OpenAITokenizer.ofConfig enc hf).pad_token_id = p := by
  refine ⟨?_, ?_, ?_⟩
  · rw [generate_sent]
    simp only [inputsListOf, hp]
    congr 1
    apply List.map_congr_left
    intro xs _
    exact stripPads_some p xs
  · intro row hrow
    rcases List.mem_map.mp hrow with ⟨xs, _, rfl⟩
    intro hmem
    have := List.of_mem_filter hmem
    simp at this
  · simp [OpenAITokenizer.ofConfig, pyOr, hp, hp0]

/-- C5, amended, witness. -/
theorem c5_pad_strip_repad_amended_witness :
    ((OpenAIModel.mk ⟨"some-model"⟩ ⟨none, none, some 7⟩
        (OpenAITokenizer.ofConfig charEnc ⟨none, none, some 7⟩)).generate
        okOracle 3 (.dim2 [[3, 7], [7, 2]]) none []).sent
      = .nested ([[3, 7], [7, 2]].map (List.filter (fun t => decide (t ≠ (7 : Int))))) ∧
    (∀ row ∈ [[3, 7], [7, 2]].map (List.filter (fun t => decide (t ≠ (7 : Int)))),
      (7 : Int) ∉ row) ∧
    (OpenAITokenizer.ofConfig charEnc ⟨none, none, some 7⟩).pad_token_id = 7 :=
  c5_pad_strip_repad_amended ⟨"some-model"⟩ charEnc ⟨none, none, some 7⟩
    okOracle 3 [[3, 7], [7, 2]] none [] 7 rfl (by decide)

/-- An oracle whose probe fails with an unrelated invalid request. -/
def badRequestOracle : Oracle :=
  ⟨fun _ => .invalidRequestError "bad request", fun _ => .ok [⟨"hi"⟩]⟩

/-- An oracle whose probe raises a generic API error. -/
def apiErrorOracle : Oracle :=
  ⟨fun _ => .apiError, fun _ => .ok [⟨"hi"⟩]⟩

/-- An oracle whose probe raises an unrelated exception. -/
def otherErrorOracle : Oracle :=
  ⟨fun _ => .otherError, fun _ => .ok [⟨"hi"⟩]⟩

/-- C7: classification is computed from the probe outcome of the very
call being made (the embedding of `generate` evaluates the probe anew on
each invocation, so calls against environments with different probe
outcomes classify independently — nothing is cached).  A successful
probe classifies completion-style; an invalid-request error whose text
contains the chat-model indicator classifies chat-style; an
invalid-request error without the indicator, and every rate-limit,
generic API or other probe error, propagates unchanged. -/
theorem c7_backend_classification (m : OpenAIModel)
    (o1 o2 o3 o4 o5 o6 : Oracle) (fuel : Nat) (inputs : PyTensor)
    (gc : Option GenerationConfig) (kws : List GCOverride)
    (cs : List CompletionChoice) (msg bad : String)
    (h1 : o1.completion 0 = .ok cs)
    (h2 : o2.completion 0 = .invalidRequestError msg)
    (hmsg : containsSubstr chatModelIndicator msg = true)
    (h3 : o3.completion 0 = .invalidRequestError bad)
    (hbad : containsSubstr chatModelIndicator bad = false)
    (h4 : o4.completion 0 = .rateLimitError)
    (h5 : o5.completion 0 = .apiError)
    (h6 : o6.completion 0 = .otherError) :
    (m.generate o1 fuel inputs gc kws).backend = some .completion ∧
    (m.generate o2 fuel inputs gc kws).backend = some .chat ∧
    ((m.generate o3 fuel inputs gc kws).result = .raised (.invalidRequestError bad) ∧
     (m.generate o3 fuel inputs gc kws).backend = none) ∧
    ((m.generate o4 fuel inputs gc kws).result = .raised .rateLimitError ∧
     (m.generate o4 fuel inputs gc kws).backend = none) ∧
    ((m.generate o5 fuel inputs gc kws).result = .raised .apiError ∧
     (m.generate o5 fuel inputs gc kws).backend = none) ∧
    ((m.generate o6 fuel inputs gc kws).result = .raised .otherError ∧
     (m.generate o6 fuel inputs gc kws).backend = none) := by
  refine ⟨?_, ?_, ?_, ?_, ?_, ?_⟩
  · have := (generate_of_classify_ok m o1 fuel inputs gc kws false
      (generateLoop m.tokenizer o1 false (inputsListOf m inputs) fuel 1 0)
      (by rw [h1]; rfl) rfl).1
    simpa using this
  · have := (generate_of_classify_ok m o2 fuel inputs gc kws true
      (generateLoop m.tokenizer o2 true (inputsListOf m inputs) fuel 1 0)
      (by rw [h2]; simp [classifyReply, hmsg]) rfl).1
    simpa using this
  · have := generate_raised_of_classify_error m o3 fuel inputs gc kws
      (.invalidRequestError bad) (by rw [h3]; simp [classifyReply, hbad])
    exact ⟨this.1, this.2.2⟩
  · have := generate_raised_of_classify_error m o4 fuel inputs gc kws
      .rateLimitError (by rw [h4]; rfl)
    exact ⟨this.1, this.2.2⟩
  · have := generate_raised_of_classify_error m o5 fuel inputs gc kws
      .apiError (by rw [h5]; rfl)
    exact ⟨this.1, this.2.2⟩
  · have := generate_raised_of_classify_error m o6 fuel inputs gc kws
      .otherError (by rw [h6]; rfl)
    exact ⟨this.1, this.2.2⟩

/-- C7, witness. -/
theorem c7_backend_classification_witness :
    (bugModel.generate okOracle 2 (.dim1 [3]) none []).backend = some .completion ∧
    (bugModel.generate chatOracle 2 (.dim1 [3]) none []).backend = some .chat ∧
    ((bugModel.generate badRequestOracle 2 (.dim1 [3]) none []).result
        = .raised (.invalidRequestError "bad request") ∧
     (bugModel.generate badRequestOracle 2 (.dim1 [3]) none []).backend = none) ∧
    ((bugModel.generate allRateLimitOracle 2 (.dim1 [3]) none []).result
        = .raised .rateLimitError ∧
     (bugModel.generate allRateLimitOracle 2 (.dim1 [3]) none []).backend = none) ∧
    ((bugModel.generate apiErrorOracle 2 (.dim1 [3]) none []).result
        = .raised .apiError ∧
     (bugModel.generate apiErrorOracle 2 (.dim1 [3]) none []).backend = none) ∧
    ((bugModel.generate otherErrorOracle 2 (.dim1 [3]) none []).result
        = .raised .otherError ∧
     (bugModel.generate otherErrorOracle 2 (.dim1 [3]) none []).backend = none) :=
  c7_backend_classification bugModel okOracle chatOracle badRequestOracle
    allRateLimitOracle apiErrorOracle otherErrorOracle 2 (.dim1 [3]) none []
    [⟨"ab"⟩, ⟨"c"⟩] "This is a chat model" "bad request"
    rfl rfl (by decide) rfl (by decide) rfl rfl rfl

/-- The first choice of the k-th chat reply (meaningful when that reply
is a success with a non-empty choice list). -/
def chatReplyHead (o : Oracle) (k : Nat) : ChatChoice :=
  match o.chat k with
  | .ok (c :: _) => c
  | _ => ⟨""⟩

theorem chatAttempt_all_ok (tok : OpenAITokenizer) (o : Oracle) :
    ∀ (xss : List (List Int)) (k : Nat) (acc : List (List Int)),
      (∀ i, i < xss.length → ∃ c cs, o.chat (k + i) = .ok (c :: cs)) →
      chatAttempt tok o k xss acc =
        .success (acc ++ (List.range xss.length).map
            (fun i => retokenize tok ((chatReplyHead o (k + i)).content.trim)))
          (k + xss.length) := by
  intro xss
  induction xss with
  | nil => intro k acc _; simp [chatAttempt]
  | cons x rest ih =>
      intro k acc hok
      rcases hok 0 (by simp) with ⟨c, cs, hc⟩
      rw [Nat.add_zero] at hc
      have hhead : chatReplyHead o k = c := by simp [chatReplyHead, hc]
      have hrec := ih (k + 1) (acc ++ [retokenize tok c.content.trim])
        (fun i hi => by
          rcases hok (i + 1) (by simpa using Nat.succ_lt_succ hi) with ⟨d, ds, hd⟩
          exact ⟨d, ds, by rw [show k + 1 + i = k + (i + 1) by omega]; exact hd⟩)
      rw [chatAttempt, hc]
      show chatAttempt tok o (k + 1) rest (acc ++ [retokenize tok c.content.trim]) = _
      rw [hrec]
      have hidx : ∀ i : Nat, k + 1 + i = k + (i + 1) := by intro i; omega
      have hmaps : (List.range rest.length).map
            (fun i => retokenize tok ((chatReplyHead o (k + 1 + i)).content.trim))
          = (List.range rest.length).map
            (fun i => retokenize tok ((chatReplyHead o (k + (i + 1))).content.trim)) := by
        apply List.map_congr_left
        intro i _
        rw [hidx i]
      rw [hmaps]
      have hrange : (List.range (x :: rest).length).map
            (fun i => retokenize tok ((chatReplyHead o (k + i)).content.trim))
          = retokenize tok ((chatReplyHead o k).content.trim) ::
              (List.range rest.length).map
                (fun i => retokenize tok ((chatReplyHead o (k + (i + 1))).content.trim)) := by
        rw [List.length_cons, List.range_succ_eq_map, List.map_cons, List.map_map]
        simp [Function.comp, Nat.add_comm]
      rw [hrange, hhead]
      have hnum : k + 1 + rest.length = k + (x :: rest).length := by
        rw [List.length_cons]
        omega
      rw [List.append_assoc, hnum, List.singleton_append]

/-- C10: with a chat-classified backend and a 2-D input, each input
sequence contributes exactly one output row — the re-tokenization of the
trimmed content of the first choice of its reply — for any generation
configuration and overrides (hence any configured number of return
sequences) and whatever additional choices the replies carry; the rows
are re-padded into the output tensor in order. -/
theorem c10_chat_first_choice_only (m : OpenAIModel) (o : Oracle)
    (xss : List (List Int)) (fuel : Nat) (gc : Option GenerationConfig)
    (kws : List GCOverride) (msg : String)
    (hprobe : o.completion 0 = .invalidRequestError msg)
    (hmsg : containsSubstr chatModelIndicator msg = true)
    (hok : ∀ i, i < xss.length → ∃ c cs, o.chat (1 + i) = .ok (c :: cs)) :
    (m.generate o (fuel + 1) (.dim2 xss) gc kws).result =
      .returns (.dim2 (padBatch m.tokenizer.pad_token_id
        ((List.range xss.length).map
          (fun i => retokenize m.tokenizer ((chatReplyHead o (1 + i)).content.trim))))) := by
  have hstrip : inputsListOf m (.dim2 xss)
      = .nested (xss.map (stripPads m.config.pad_token_id)) := rfl
  have hlen : (xss.map (stripPads m.config.pad_token_id)).length = xss.length :=
    List.length_map _ _
  have hattempt := chatAttempt_all_ok m.tokenizer o
    (xss.map (stripPads m.config.pad_token_id)) 1 []
    (fun i hi => hok i (by rwa [hlen] at hi))
  have hloop : generateLoop m.tokenizer o true (inputsListOf m (.dim2 xss))
      (fuel + 1) 1 0 =
      .done ((List.range xss.length).map
        (fun i => retokenize m.tokenizer ((chatReplyHead o (1 + i)).content.trim))) 0 := by
    rw [hlen] at hattempt
    rw [hstrip, generateLoop]
    have hred : attemptOnce m.tokenizer o true
        (.nested (xss.map (stripPads m.config.pad_token_id))) 1 =
        chatAttempt m.tokenizer o 1 (xss.map (stripPads m.config.pad_token_id)) [] := rfl
    rw [hred, hattempt]
    rfl
  have h := generate_of_classify_ok m o (fuel + 1) (.dim2 xss) gc kws true _
    (by rw [hprobe]; simp [classifyReply, hmsg]) hloop
  simpa [multipleInputs] using h.2.1

/-- C10, witness: two inputs, replies carrying a second (discarded)
choice, and an override requesting three return sequences. -/
theorem c10_chat_first_choice_only_witness :
    (bugModel.generate chatOracle (2 + 1) (.dim2 [[3], [4, 7]]) none
        [.num_return_sequences 3]).result =
      .returns (.dim2 (padBatch bugModel.tokenizer.pad_token_id
        ((List.range ([[3], [4, 7]] : List (List Int)).length).map
          (fun i => retokenize bugModel.tokenizer
            ((chatReplyHead chatOracle (1 + i)).content.trim))))) :=
  c10_chat_first_choice_only bugModel chatOracle [[3], [4, 7]] 2 none
    [.num_return_sequences 3] "This is a chat model" rfl (by decide)
    (fun i _ => ⟨⟨" hi "⟩, [⟨"zz"⟩], rfl⟩)

end ScandEval
